import Mathlib

/-!
Shallow embedding of `src/core/helpers/upload.ts` from
max-messenger/max-bot-api-client-ts: the `Upload` class (source
normalization, the upload session manager, the chunked stream
transmitter and the buffer transmitter).

Modelling conventions:
* Parsed JSON response bodies are values of `JValue`; JavaScript
  truthiness of such a value is `jsFalsy` (the code tests `!uploadData`
  where `uploadData : Res | null` starts as `null`; we initialise the
  model's `uploadData` to `JValue.jNull`, which is falsy exactly like
  `null`).
* The byte stream is the list of chunks the platform delivers, each a
  list of bytes.  Node emits `'data'` events strictly sequentially and
  `pause()` suppresses further `'data'` events until `resume()`, so the
  transmitter's execution is a sequential fold over the chunk list; the
  order of the request trace is the order the requests are issued.
* Each `fetch` settles with a `FetchResult`: either a response
  (status, parsed JSON body) or a transport-level rejection
  (`netError`: connection failure or abort of the shared signal).
* Crucially, the `'data'` handler is an `async` callback registered on
  the stream.  An exception thrown inside it (the `throw new
  MaxError(...)` on status >= 400) or a rejected `await` (an aborted
  `fetch`) rejects only the callback's own implicit promise, which
  nobody awaits; the outer `new Promise((resolve, reject) => ...)`
  returned by `uploadFromStream` can settle only through the `resolve` /
  `reject` calls in the `'end'` / `'error'` handlers.  Moreover the
  stream was just paused and `resume()` is skipped by the exception, so
  neither `'data'` nor `'end'` ever fires again.  The model records
  these executions as `pending...` outcomes: the returned promise never
  settles and the error escapes as an unhandled promise rejection.
* Timing: the session manager arms `setTimeout(() => abort(), timeout)`
  once, before the transfer starts.  We model wall-clock time as the sum
  of the network durations of the requests issued so far (non-network
  work is instantaneous); a request whose completion time exceeds the
  deadline is rejected by the abort signal (`netError`), whether the
  signal fired mid-flight or before issuance.
-/

namespace MaxUpload

/-- JSON values as produced by `Response.json()`. -/
inductive JValue where
  | jNull
  | jBool (b : Bool)
  | jNum (n : Int)
  | jStr (s : String)
  | jArr (elems : List JValue)
  | jObj (fields : List (String × JValue))
deriving Repr

/-- JavaScript falsiness of a parsed JSON value (`null`, `false`, `0`
and `""` are falsy; every object and array is truthy). -/
def jsFalsy : JValue → Bool
  | .jNull => true
  | .jBool b => !b
  | .jNum n => n == 0
  | .jStr s => s == ""
  | .jArr _ => false
  | .jObj _ => false

/-- Result of one `fetch` call settling: a response, or a
transport-level rejection (network fault, or abort through the shared
`AbortController` signal). -/
inductive FetchResult where
  | ok (status : Nat) (body : JValue)
  | netError
deriving Repr

/-- One chunk request as issued by `uploadFromStream`: the
`Content-Range` header fields `bytes startBite-endBite/contentLength`,
the `Content-Disposition` file name, and the chunk body.  The source
computes `startBite = prevChunk + 1` and `endBite = prevChunk +
chunk.length` with `prevChunk` initialised to `-1`, so the fields are
integers. -/
structure ChunkRequest where
  startBite : Int
  endBite : Int
  contentLength : Nat
  fileName : String
  body : List Nat
deriving Repr, DecidableEq

/-- How the promise returned by `uploadFromStream` ends up.
`resolved` / `rejected...` are the promise settling; the `pending...`
outcomes are executions where the error was thrown inside the `async`
`'data'` handler, so the promise never settles and the error surfaces
only as an unhandled promise rejection (see the file comment). -/
inductive StreamOutcome where
  | resolved (v : JValue)
  /-- Case `reject(new Error('Failed to upload'))` on `'end'` with no
  (truthy) captured payload. -/
  | rejectedIncomplete
  /-- Case `reject(err)` from the stream's `'error'` event. -/
  | rejectedStreamError
  /-- Case `throw new MaxError(status, parsedBody)` on a chunk response with
  status >= 400: unhandled rejection, promise never settles. -/
  | pendingMaxError (status : Nat) (body : JValue)
  /-- a chunk `fetch` rejected (abort / network fault) and the rejection
  escaped the `'data'` handler: unhandled, promise never settles. -/
  | pendingTransferError
deriving Repr

/-- Does the promise ever settle (resolve or reject)? -/
def settles : StreamOutcome → Bool
  | .resolved _ => true
  | .rejectedIncomplete => true
  | .rejectedStreamError => true
  | .pendingMaxError _ _ => false
  | .pendingTransferError => false

/-- The loop body of `uploadFromStream`'s `'data'` handler, folded over
the chunk list (legitimate because `pause()`/`resume()` make delivery
strictly sequential).  State: `reqIdx` counts requests issued so far
(index into the fetch environment `env`), `prevChunk` is the last byte
index already sent (starts at `-1`), `data` is the captured payload
(`uploadData`, starts as `null`).  Returns the trace of issued chunk
requests, the final `uploadData`, and `some outcome` if the handler
terminated the upload early (escaped exception), else `none`. -/
def processChunks (fileName : String) (contentLength : Nat)
    (env : Nat → FetchResult) (reqIdx : Nat) (prevChunk : Int)
    (data : JValue) :
    List (List Nat) → List ChunkRequest × JValue × Option StreamOutcome
  | [] => ([], data, none)
  | chunk :: rest =>
    let req : ChunkRequest :=
      { startBite := prevChunk + 1
        endBite := prevChunk + chunk.length
        contentLength := contentLength
        fileName := fileName
        body := chunk }
    match env reqIdx with
    | .netError => ([req], data, some .pendingTransferError)
    | .ok status body =>
      if 400 ≤ status then
        ([req], data, some (.pendingMaxError status body))
      else
        let newData := if jsFalsy data then body else data
        let r := processChunks fileName contentLength env (reqIdx + 1)
          (prevChunk + chunk.length) newData rest
        (req :: r.1, r.2)

/-- How the stream finishes once the chunk loop is done: an exception
that escaped the `'data'` handler (`early = some out`) leaves the
promise in that state (paused stream, no `'end'`); otherwise the stream
finishes — with an `'error'` event (`streamErr = true`, modelling an I/O
fault of the underlying file stream after the chunks) rejecting with
that error, or with `'end'`, which rejects `Failed to upload` when
`!uploadData` and resolves `uploadData` otherwise. -/
def streamFinish (data : JValue) (early : Option StreamOutcome)
    (streamErr : Bool) : StreamOutcome :=
  match early with
  | some out => out
  | none =>
    if streamErr then .rejectedStreamError
    else if jsFalsy data then .rejectedIncomplete
    else .resolved data

/-- Model of `uploadFromStream`: runs the chunk loop over the delivered chunks
and settles (or fails to settle) as `streamFinish` describes.  Returns
the trace of issued chunk requests and the outcome. -/
def uploadFromStream (fileName : String) (contentLength : Nat)
    (chunks : List (List Nat)) (streamErr : Bool)
    (env : Nat → FetchResult) : List ChunkRequest × StreamOutcome :=
  let r := processChunks fileName contentLength env 0 (-1) .jNull chunks
  (r.1, streamFinish r.2.1 r.2.2 streamErr)

/-- Source constant `DEFAULT_UPLOAD_TIMEOUT = 20_000` (milliseconds). -/
def DEFAULT_UPLOAD_TIMEOUT : Nat := 20000

/-- The timeout actually armed by `upload`:
`options?.timeout || DEFAULT_UPLOAD_TIMEOUT`.  `none` models a missing
`options` or a missing `timeout` field; a present numeric timeout is
falsy in JavaScript exactly when it is `0`. -/
def effectiveTimeout : Option Nat → Nat
  | none => DEFAULT_UPLOAD_TIMEOUT
  | some t => if t == 0 then DEFAULT_UPLOAD_TIMEOUT else t

/-- Wall-clock start time of the `i`-th request when the `j`-th request
spends `durs j` ms on the network and non-network work takes no time:
requests are strictly sequential, so request `i` starts when request
`i - 1` finished. -/
def startTime (durs : Nat → Nat) : Nat → Nat
  | 0 => 0
  | i + 1 => startTime durs i + durs i

/-- The fetch environment induced by the deadline timer: the abort fires
`deadline` ms after the session starts, so a request that would finish
after the deadline is rejected by the shared signal (`netError`) —
whether it was aborted mid-flight or issued with the signal already
fired.  Otherwise the server answers with `server i = (status, body)`. -/
def deadlineEnv (deadline : Nat) (durs : Nat → Nat)
    (server : Nat → Nat × JValue) (i : Nat) : FetchResult :=
  if deadline < startTime durs i + durs i then .netError
  else .ok (server i).1 (server i).2

/-- A fetch environment in which every request gets a server response
(no aborts, no network faults). -/
def okEnv (server : Nat → Nat × JValue) (i : Nat) : FetchResult :=
  .ok (server i).1 (server i).2

/-- One field of the `FormData` built by `uploadFromBuffer`:
`formData.append('data', new Blob([file.buffer]), file.fileName)`. -/
structure FormField where
  name : String
  bytes : List Nat
  fileName : String
deriving Repr, DecidableEq

/-- How the promise returned by `uploadFromBuffer` settles.  Unlike the
stream path, `uploadFromBuffer` is a plain `async` function, so a
rejected `await fetch(...)` propagates to the caller. -/
inductive BufferOutcome where
  | resolved (v : JValue)
  /-- the single `fetch` rejected (abort / network fault); rejection
  propagates out of `uploadFromBuffer` and rejects the call. -/
  | rejectedTransferError
deriving Repr

/-- Model of `uploadFromBuffer`: builds a multipart form with the single field
`data` carrying the buffer's bytes and the file name, issues one POST,
and returns `await res.json()` without inspecting `res.status`.
Returns the forms POSTed and the outcome. -/
def uploadFromBuffer (fileName : String) (buffer : List Nat)
    (env0 : FetchResult) : List (List FormField) × BufferOutcome :=
  let form : List FormField := [⟨"data", buffer, fileName⟩]
  match env0 with
  | .netError => ([form], .rejectedTransferError)
  | .ok _status body => ([form], .resolved body)

/-- Result of `fs.promises.stat`. -/
structure Stat where
  isFile : Bool
  size : Nat
deriving Repr, DecidableEq

/-- The filesystem: maps a path to its stat, `none` meaning `stat`
rejects (missing file / I/O error). -/
def FileSystem := String → Option Stat

/-- Source union `FileSource = string | fs.ReadStream | Buffer`.  A `ReadStream`
carries a `path` (`string | Buffer`); `pathIsString` records which, and
`p` is the path used for `stat` either way. -/
inductive FileSource where
  | path (p : String)
  | buffer (bytes : List Nat)
  | stream (p : String) (pathIsString : Bool)

/-- Node's `path.basename` (posix): drop trailing slashes, then take the part
after the last remaining slash. -/
def basename (p : String) : String :=
  let r := p.toList.reverse.dropWhile (· == '/')
  String.mk (r.takeWhile (· != '/')).reverse

/-- The normalized `UploadFile` union: `FileStream` (stream plus
`contentLength`) or `FileBuffer`.  The stream handle itself is not
data; the chunks it will deliver are supplied to the transmitter. -/
inductive UploadFile where
  | fileStream (fileName : String) (contentLength : Nat)
  | fileBuffer (fileName : String) (buffer : List Nat)
deriving Repr, DecidableEq

/-- How `getStreamFromSource` ends. -/
inductive NormalizeResult where
  | ok (f : UploadFile)
  /-- Case `throw new Error('Failed to upload ' + fileName + '. Not a file')`. -/
  | notAFileError (fileName : String)
  /-- Case where `fs.promises.stat` rejected. -/
  | ioError
deriving Repr, DecidableEq

/-- Model of `getStreamFromSource`: a path is stat'ed, rejected if not a regular
file, else opened as a stream with `fileName = basename`, `contentLength
= stat.size`; a buffer gets a `randomUUID()` name (passed in as `uuid`);
a pre-existing stream is stat'ed through its `path` property (no
`isFile` check in the source for this case), named by `basename` when
the path is a string and by `randomUUID()` otherwise. -/
def getStreamFromSource (fsys : FileSystem) (uuid : String) :
    FileSource → NormalizeResult
  | .path p =>
    match fsys p with
    | none => .ioError
    | some st =>
      if !st.isFile then .notAFileError (basename p)
      else .ok (.fileStream (basename p) st.size)
  | .buffer b => .ok (.fileBuffer uuid b)
  | .stream p isStr =>
    match fsys p with
    | none => .ioError
    | some st =>
      .ok (.fileStream (if isStr then basename p else uuid) st.size)

/-- One network call made by the upload session, in issue order:
the `getUploadUrl` negotiation, a chunk POST, or the buffer POST. -/
inductive NetworkCall where
  | getUploadUrl (mediaType : String)
  | chunkPost (r : ChunkRequest)
  | bufferPost (form : List FormField)
deriving Repr

/-- Outcome of the whole `upload` call. -/
inductive UploadOutcome where
  | resolved (v : JValue)
  | rejectedIncomplete
  | rejectedStreamError
  /-- buffer-path transport rejection: propagates, the call rejects. -/
  | rejectedTransferError
  | pendingMaxError (status : Nat) (body : JValue)
  | pendingTransferError
deriving Repr

/-- Does the promise returned by `upload` ever settle? -/
def uploadSettles : UploadOutcome → Bool
  | .resolved _ => true
  | .rejectedIncomplete => true
  | .rejectedStreamError => true
  | .rejectedTransferError => true
  | .pendingMaxError _ _ => false
  | .pendingTransferError => false

def liftStreamOutcome : StreamOutcome → UploadOutcome
  | .resolved v => .resolved v
  | .rejectedIncomplete => .rejectedIncomplete
  | .rejectedStreamError => .rejectedStreamError
  | .pendingMaxError s b => .pendingMaxError s b
  | .pendingTransferError => .pendingTransferError

/-- Model of `upload`: requests the upload URL (the first network call), arms the
deadline timer (`effectiveTimeout`), and dispatches on the `UploadFile`
variant; every fetch shares the deadline-driven abort signal
(`deadlineEnv`).  Returns the armed deadline, the network-call trace and
the outcome.  `chunks`/`streamErr` describe what the stream delivers in
the stream case (ignored for buffers); `durs` and `server` are the
environment: per-request network duration and server response. -/
def upload (mediaType : String) (file : UploadFile)
    (timeout : Option Nat) (chunks : List (List Nat)) (streamErr : Bool)
    (durs : Nat → Nat) (server : Nat → Nat × JValue) :
    Nat × List NetworkCall × UploadOutcome :=
  let deadline := effectiveTimeout timeout
  let env := deadlineEnv deadline durs server
  match file with
  | .fileStream name len =>
    let r := uploadFromStream name len chunks streamErr env
    (deadline, .getUploadUrl mediaType :: r.1.map .chunkPost,
      liftStreamOutcome r.2)
  | .fileBuffer name buf =>
    let r := uploadFromBuffer name buf (env 0)
    (deadline, .getUploadUrl mediaType :: r.1.map .bufferPost,
      match r.2 with
      | .resolved v => .resolved v
      | .rejectedTransferError => .rejectedTransferError)

/-- Argument to `Upload.image`: either `{ url }` or `{ source }`. -/
inductive ImageSource where
  | fromUrl (u : String)
  | fromSource (s : FileSource)

/-- Outcome of `Upload.image`. -/
inductive ImageOutcome where
  /-- Case where a `url` input returns it unchanged without uploading. -/
  | urlPassthrough (u : String)
  | rejectedNotAFile (fileName : String)
  | statRejected
  | uploaded (deadline : Nat) (outcome : UploadOutcome)
deriving Repr

/-- Model of `Upload.image`: a `url` source is returned as-is; otherwise the
source is normalized by `getStreamFromSource` (whose rejection rejects
`image` before `upload` — and hence before any network call — is
reached) and handed to `upload 'image'`.  Returns the network-call trace
and the outcome. -/
def image (fsys : FileSystem) (uuid : String) (timeout : Option Nat)
    (src : ImageSource) (chunks : List (List Nat)) (streamErr : Bool)
    (durs : Nat → Nat) (server : Nat → Nat × JValue) :
    List NetworkCall × ImageOutcome :=
  match src with
  | .fromUrl u => ([], .urlPassthrough u)
  | .fromSource s =>
    match getStreamFromSource fsys uuid s with
    | .notAFileError name => ([], .rejectedNotAFile name)
    | .ioError => ([], .statRejected)
    | .ok f =>
      let r := upload "image" f timeout chunks streamErr durs server
      (r.2.1, .uploaded r.1 r.2.2)

/-- Total number of bytes in a chunk list. -/
def sumLens : List (List Nat) → Nat
  | [] => 0
  | c :: cs => c.length + sumLens cs

/-- The chunk requests the transmitter is expected to issue for chunks
`cs` when the last byte index already sent is `prev`: ranges
`[prev+1, prev+c.length]`, advancing by each chunk's length. -/
def expectedFrom (fileName : String) (N : Nat) (prev : Int) :
    List (List Nat) → List ChunkRequest
  | [] => []
  | c :: cs =>
    ⟨prev + 1, prev + c.length, N, fileName, c⟩ ::
      expectedFrom fileName N (prev + c.length) cs

/-- Expected request trace for a whole stream (`prevChunk` starts at
`-1`, so the first range starts at byte 0). -/
def expectedRanges (fileName : String) (N : Nat)
    (cs : List (List Nat)) : List ChunkRequest :=
  expectedFrom fileName N (-1) cs

/-- Each request's range starts right after the previous one ends
(contiguous and non-overlapping). -/
def rangesContiguous : List ChunkRequest → Bool
  | [] => true
  | [_] => true
  | a :: b :: rest =>
    (b.startBite == a.endBite + 1) && rangesContiguous (b :: rest)

/-- Sum of the byte-range sizes (`end - start + 1`) over a trace. -/
def rangesSizeSum : List ChunkRequest → Int
  | [] => 0
  | r :: rest => (r.endBite - r.startBite + 1) + rangesSizeSum rest

theorem expectedFrom_length (fileName : String) (N : Nat) :
    ∀ (cs : List (List Nat)) (prev : Int),
      (expectedFrom fileName N prev cs).length = cs.length
  | [], _ => rfl
  | c :: cs, prev => by
    simp [expectedFrom, expectedFrom_length fileName N cs]

theorem expectedFrom_contiguous (fileName : String) (N : Nat) :
    ∀ (cs : List (List Nat)) (prev : Int),
      rangesContiguous (expectedFrom fileName N prev cs) = true
  | [], _ => rfl
  | [_], _ => rfl
  | c :: c' :: cs, prev => by
    have ih := expectedFrom_contiguous fileName N (c' :: cs) (prev + c.length)
    simp only [expectedFrom] at ih ⊢
    simp only [rangesContiguous, ih, Bool.and_true]
    simp

theorem expectedFrom_sizeSum (fileName : String) (N : Nat) :
    ∀ (cs : List (List Nat)) (prev : Int),
      rangesSizeSum (expectedFrom fileName N prev cs) = (sumLens cs : Int)
  | [], _ => rfl
  | c :: cs, prev => by
    have ih := expectedFrom_sizeSum fileName N cs (prev + c.length)
    simp only [expectedFrom, rangesSizeSum, sumLens, ih]
    push_cast
    ring

theorem expectedFrom_contentLength (fileName : String) (N : Nat) :
    ∀ (cs : List (List Nat)) (prev : Int) (r : ChunkRequest),
      r ∈ expectedFrom fileName N prev cs → r.contentLength = N
  | c :: cs, prev, r, hr => by
    simp only [expectedFrom, List.mem_cons] at hr
    rcases hr with h | h
    · rw [h]
    · exact expectedFrom_contentLength fileName N cs (prev + c.length) r h

/-- Under a fault-free environment whose statuses are all below 400, the
chunk loop issues exactly the expected requests and no exception escapes
the `'data'` handler. -/
theorem processChunks_ok_trace (fileName : String) (N : Nat)
    (server : Nat → Nat × JValue) :
    ∀ (cs : List (List Nat)) (k : Nat) (prev : Int) (data : JValue),
      (∀ i, i < cs.length → (server (k + i)).1 < 400) →
      (processChunks fileName N (okEnv server) k prev data cs).1
          = expectedFrom fileName N prev cs
        ∧ (processChunks fileName N (okEnv server) k prev data cs).2.2
          = none
  | [], _, _, _, _ => ⟨rfl, rfl⟩
  | c :: cs, k, prev, data, hok => by
    have h0 : (server k).1 < 400 := by simpa using hok 0 (by simp)
    have hrest : ∀ i, i < cs.length → (server (k + 1 + i)).1 < 400 := by
      intro i hi
      have := hok (i + 1) (by simpa using Nat.succ_lt_succ hi)
      simpa [Nat.add_assoc, Nat.add_comm 1 i] using this
    have ih := processChunks_ok_trace fileName N server cs (k + 1)
      (prev + c.length) (if jsFalsy data then (server k).2 else data) hrest
    simp only [processChunks, okEnv, expectedFrom]
    rw [if_neg (by omega)]
    simp [ih.1, ih.2]

/-- Once a truthy payload has been captured, later fault-free responses
with statuses below 400 never replace it, and no exception escapes. -/
theorem processChunks_keep_data (fileName : String) (N : Nat)
    (server : Nat → Nat × JValue) :
    ∀ (cs : List (List Nat)) (k : Nat) (prev : Int) (data : JValue),
      jsFalsy data = false →
      (∀ i, i < cs.length → (server (k + i)).1 < 400) →
      (processChunks fileName N (okEnv server) k prev data cs).2.1 = data
        ∧ (processChunks fileName N (okEnv server) k prev data cs).2.2
          = none
  | [], _, _, _, _, _ => ⟨rfl, rfl⟩
  | c :: cs, k, prev, data, hdata, hok => by
    have h0 : (server k).1 < 400 := by simpa using hok 0 (by simp)
    have hrest : ∀ i, i < cs.length → (server (k + 1 + i)).1 < 400 := by
      intro i hi
      have := hok (i + 1) (by simpa using Nat.succ_lt_succ hi)
      simpa [Nat.add_assoc, Nat.add_comm 1 i] using this
    have ih := processChunks_keep_data fileName N server cs (k + 1)
      (prev + c.length) data hdata hrest
    simp only [processChunks, okEnv]
    rw [if_neg (by omega), hdata]
    simp only [Bool.false_eq_true, if_false]
    exact ih

/-- If the captured payload is still falsy and every fault-free response
below status 400 carries a falsy body, the payload stays falsy and no
exception escapes. -/
theorem processChunks_falsy_data (fileName : String) (N : Nat)
    (server : Nat → Nat × JValue) :
    ∀ (cs : List (List Nat)) (k : Nat) (prev : Int) (data : JValue),
      jsFalsy data = true →
      (∀ i, i < cs.length → (server (k + i)).1 < 400) →
      (∀ i, i < cs.length → jsFalsy (server (k + i)).2 = true) →
      jsFalsy (processChunks fileName N (okEnv server) k prev data cs).2.1
          = true
        ∧ (processChunks fileName N (okEnv server) k prev data cs).2.2
          = none
  | [], _, _, _, hdata, _, _ => ⟨hdata, rfl⟩
  | c :: cs, k, prev, data, hdata, hok, hfalsy => by
    have h0 : (server k).1 < 400 := by simpa using hok 0 (by simp)
    have hf0 : jsFalsy (server k).2 = true := by
      simpa using hfalsy 0 (by simp)
    have hrest : ∀ i, i < cs.length → (server (k + 1 + i)).1 < 400 := by
      intro i hi
      have := hok (i + 1) (by simpa using Nat.succ_lt_succ hi)
      simpa [Nat.add_assoc, Nat.add_comm 1 i] using this
    have hfrest : ∀ i, i < cs.length →
        jsFalsy (server (k + 1 + i)).2 = true := by
      intro i hi
      have := hfalsy (i + 1) (by simpa using Nat.succ_lt_succ hi)
      simpa [Nat.add_assoc, Nat.add_comm 1 i] using this
    have ih := processChunks_falsy_data fileName N server cs (k + 1)
      (prev + c.length) (server k).2 hf0 hrest hfrest
    simp only [processChunks, okEnv]
    rw [if_neg (by omega), hdata]
    simp only [if_true]
    exact ih

/-- One step of the chunk loop when the response is fault-free with a
status below 400. -/
theorem processChunks_cons_ok (fileName : String) (N : Nat)
    (server : Nat → Nat × JValue) (k : Nat) (prev : Int) (data : JValue)
    (c : List Nat) (cs : List (List Nat)) (h : (server k).1 < 400) :
    processChunks fileName N (okEnv server) k prev data (c :: cs)
      = (⟨prev + 1, prev + c.length, N, fileName, c⟩ ::
          (processChunks fileName N (okEnv server) (k + 1)
            (prev + c.length)
            (if jsFalsy data then (server k).2 else data) cs).1,
         (processChunks fileName N (okEnv server) (k + 1)
            (prev + c.length)
            (if jsFalsy data then (server k).2 else data) cs).2) := by
  simp only [processChunks, okEnv]
  rw [if_neg (not_le.mpr h)]

/-- Claim C1 (code_bug evidence).  On a chunk response with status 500
the transmitter issues no further chunk request — but the upload call's
returned promise does not reject with the `MaxError`: the error is
thrown inside the `async` `'data'` handler, so it only becomes an
unhandled promise rejection, and the promise never settles.  Evaluated
on a two-chunk stream whose first chunk response is status 500 with body
`\x7b code: "bad" \x7d`: exactly one chunk POST is issued (the second is
never sent), the outcome carries the status and parsed body, and the
outcome is not a settlement of the promise. -/
theorem chunk_http_error_unhandled_no_reject :
    upload "file" (.fileStream "f.bin" 2) none [[1], [2]] false
        (fun _ => 0) (fun _ => (500, .jObj [("code", .jStr "bad")]))
      = (20000,
          [.getUploadUrl "file", .chunkPost ⟨0, 0, 2, "f.bin", [1]⟩],
          .pendingMaxError 500 (.jObj [("code", .jStr "bad")]))
      ∧ uploadSettles
            (.pendingMaxError 500 (.jObj [("code", .jStr "bad")]))
          = false :=
  ⟨rfl, rfl⟩

/-- Claim C2 (code_bug evidence).  With no caller-supplied timeout the
armed deadline is the default 20 000 ms, and a fetch still in flight
when the deadline elapses is aborted and no further chunk is ever sent —
but on the stream path the call does not fail with a `TransferError`:
the aborted `fetch`'s rejection escapes the `async` `'data'` handler as
an unhandled promise rejection and the returned promise never settles.
Evaluated on a two-chunk stream whose first chunk fetch takes 25 000 ms
(exceeding the 20 000 ms deadline): exactly one chunk POST is issued and
the outcome is the unsettled transfer-error state. -/
theorem deadline_abort_unhandled_no_reject :
    upload "video" (.fileStream "v.mp4" 2) none [[1], [2]] false
        (fun _ => 25000) (fun _ => (200, .jObj [("token", .jStr "t")]))
      = (20000,
          [.getUploadUrl "video", .chunkPost ⟨0, 0, 2, "v.mp4", [1]⟩],
          .pendingTransferError)
      ∧ uploadSettles .pendingTransferError = false :=
  ⟨rfl, rfl⟩

/-- Claim C3.  For a stream delivered as chunks `c1..cn` whose lengths
sum to `contentLength`, with every response received and of status below
400, the transmitter issues exactly one request per chunk, in delivery
order (the loop is sequential by the pause/resume gating), with ranges
`[0, len c1 - 1]`, `[len c1, len c1 + len c2 - 1]`, …: the trace equals
`expectedRanges`, has one entry per chunk, is contiguous and
non-overlapping, the range sizes sum to `contentLength`, and every
request declares `contentLength` as the total. -/
theorem chunk_ranges_sequential_contiguous (fileName : String) (N : Nat)
    (cs : List (List Nat)) (server : Nat → Nat × JValue)
    (hok : ∀ i, i < cs.length → (server i).1 < 400)
    (hsum : sumLens cs = N) :
    (uploadFromStream fileName N cs false (okEnv server)).1
        = expectedRanges fileName N cs
      ∧ (uploadFromStream fileName N cs false (okEnv server)).1.length
        = cs.length
      ∧ rangesContiguous
            (uploadFromStream fileName N cs false (okEnv server)).1
          = true
      ∧ rangesSizeSum
            (uploadFromStream fileName N cs false (okEnv server)).1
          = (N : Int)
      ∧ ∀ r ∈ (uploadFromStream fileName N cs false (okEnv server)).1,
          r.contentLength = N := by
  have h := processChunks_ok_trace fileName N server cs 0 (-1) .jNull
    (by simpa using hok)
  have htrace : (uploadFromStream fileName N cs false (okEnv server)).1
      = expectedRanges fileName N cs := h.1
  refine ⟨htrace, ?_, ?_, ?_, ?_⟩ <;> rw [htrace] <;>
    simp only [expectedRanges]
  · exact expectedFrom_length fileName N cs (-1)
  · exact expectedFrom_contiguous fileName N cs (-1)
  · rw [expectedFrom_sizeSum fileName N cs (-1), hsum]
  · exact expectedFrom_contentLength fileName N cs (-1)

def c3server : Nat → Nat × JValue :=
  fun _ => (200, .jObj [("id", .jNum 7), ("token", .jStr "abc")])

def c3chunks : List (List Nat) :=
  [List.replicate 1000 1, List.replicate 500 2]

/-- Witness for C3: the spec's two-chunk scenario (chunk sizes 1000 and
500, `contentLength = 1500`), every response status 200. -/
theorem chunk_ranges_sequential_contiguous_witness :
    (uploadFromStream "photo.png" 1500 c3chunks false
          (okEnv c3server)).1
        = expectedRanges "photo.png" 1500 c3chunks
      ∧ (uploadFromStream "photo.png" 1500 c3chunks false
            (okEnv c3server)).1.length
        = c3chunks.length
      ∧ rangesContiguous
            (uploadFromStream "photo.png" 1500 c3chunks false
              (okEnv c3server)).1
          = true
      ∧ rangesSizeSum
            (uploadFromStream "photo.png" 1500 c3chunks false
              (okEnv c3server)).1
          = (1500 : Int)
      ∧ ∀ r ∈ (uploadFromStream "photo.png" 1500 c3chunks false
            (okEnv c3server)).1,
          r.contentLength = 1500 :=
  chunk_ranges_sequential_contiguous "photo.png" 1500 c3chunks c3server
    (fun _ _ => by norm_num [c3server])
    (by rw [c3chunks]; simp only [sumLens, List.length_replicate])

/-- Claim C4.  When every chunk response arrives with status below 400
and the first response's parsed body is truthy, the upload resolves with
that first body; the bodies of the later responses never replace it. -/
theorem first_truthy_body_retained (fileName : String) (N : Nat)
    (c : List Nat) (cs : List (List Nat)) (server : Nat → Nat × JValue)
    (hok : ∀ i, i < (c :: cs).length → (server i).1 < 400)
    (htruthy : jsFalsy (server 0).2 = false) :
    (uploadFromStream fileName N (c :: cs) false (okEnv server)).2
      = .resolved (server 0).2 := by
  have h0 : (server 0).1 < 400 := hok 0 (by simp)
  have hrest : ∀ i, i < cs.length → (server (0 + 1 + i)).1 < 400 := by
    intro i hi
    have := hok (i + 1) (by simpa using Nat.succ_lt_succ hi)
    simpa [Nat.add_comm 1 i] using this
  have hkeep := processChunks_keep_data fileName N server cs (0 + 1)
    (-1 + c.length) (server 0).2 htruthy hrest
  simp only [uploadFromStream,
    processChunks_cons_ok fileName N server 0 (-1) .jNull c cs h0,
    jsFalsy, if_true]
  rw [hkeep.1, hkeep.2]
  simp [streamFinish, htruthy]

def c4payload : JValue := .jObj [("id", .jNum 7), ("token", .jStr "abc")]

def c4server : Nat → Nat × JValue :=
  fun i => (200, if i == 0 then c4payload else .jObj [("id", .jNum 99)])

/-- Witness for C4: two chunks, both responses status 200, payload
`\x7b id: 7, token: "abc" \x7d` on chunk 1, a different body on chunk 2;
the call resolves with chunk 1's payload. -/
theorem first_truthy_body_retained_witness :
    (uploadFromStream "photo.png" 1500
          [List.replicate 1000 1, List.replicate 500 2] false
          (okEnv c4server)).2
      = .resolved c4payload := by
  have h := first_truthy_body_retained "photo.png" 1500
    (List.replicate 1000 1) [List.replicate 500 2] c4server
    (fun _ _ => by norm_num [c4server])
    (by simp [c4server, c4payload, jsFalsy])
  exact h

/-- Claim C5.  The buffer transmitter issues exactly one POST whose body
is a multipart form with the single field `data` carrying the buffer's
bytes and the file name, and resolves with the response's parsed JSON
body whatever the status code is (the status is never inspected). -/
theorem buffer_single_request_ignores_status (fileName : String)
    (buffer : List Nat) (status : Nat) (body : JValue) :
    uploadFromBuffer fileName buffer (.ok status body)
      = ([[⟨"data", buffer, fileName⟩]], .resolved body) :=
  rfl

/-- Claim C6.  A path source whose stat is not a regular file makes
`Upload.image` reject with the not-a-file error before `upload` runs, so
the network-call trace is empty — in particular no `getUploadUrl`
request is made. -/
theorem directory_source_zero_network_calls (fsys : FileSystem)
    (uuid : String) (timeout : Option Nat) (p : String) (st : Stat)
    (chunks : List (List Nat)) (streamErr : Bool) (durs : Nat → Nat)
    (server : Nat → Nat × JValue)
    (hstat : fsys p = some st) (hdir : st.isFile = false) :
    image fsys uuid timeout (.fromSource (.path p)) chunks streamErr
        durs server
      = ([], .rejectedNotAFile (basename p)) := by
  simp [image, getStreamFromSource, hstat, hdir]

def c6fsys : FileSystem :=
  fun p => if p == "/data/photos" then some ⟨false, 4096⟩ else none

/-- Witness for C6: a directory path. -/
theorem directory_source_zero_network_calls_witness :
    image c6fsys "uuid-1" none (.fromSource (.path "/data/photos")) []
        false (fun _ => 0) (fun _ => (200, .jNull))
      = ([], .rejectedNotAFile (basename "/data/photos")) :=
  directory_source_zero_network_calls c6fsys "uuid-1" none
    "/data/photos" ⟨false, 4096⟩ [] false (fun _ => 0)
    (fun _ => (200, .jNull)) (by simp [c6fsys]) rfl

/-- Claim C7.  A stream that ends having delivered zero chunks leaves
`uploadData` as `null`, so the `'end'` handler rejects with the
incomplete-upload error (`Failed to upload`): no request is issued and
the call rejects rather than resolving. -/
theorem empty_stream_rejects_incomplete (fileName : String) (N : Nat)
    (env : Nat → FetchResult) :
    uploadFromStream fileName N [] false env
      = ([], .rejectedIncomplete) :=
  rfl

/-- Claim C8.  A path naming a regular file of size `S` normalizes to a
stream-backed `UploadFile` with `contentLength = S` and `fileName` equal
to the path's basename. -/
theorem path_normalizes_to_filestream (fsys : FileSystem)
    (uuid : String) (p : String) (S : Nat)
    (hstat : fsys p = some ⟨true, S⟩) :
    getStreamFromSource fsys uuid (.path p)
      = .ok (.fileStream (basename p) S) := by
  simp [getStreamFromSource, hstat]

def c8fsys : FileSystem :=
  fun p => if p == "/home/u/cat.png" then some ⟨true, 1500⟩ else none

/-- Witness for C8: a regular file of 1500 bytes. -/
theorem path_normalizes_to_filestream_witness :
    getStreamFromSource c8fsys "uuid-2" (.path "/home/u/cat.png")
      = .ok (.fileStream (basename "/home/u/cat.png") 1500) :=
  path_normalizes_to_filestream c8fsys "uuid-2" "/home/u/cat.png" 1500
    (by simp [c8fsys])

/-- Claim C9.  If every chunk response has status below 400 but every
parsed body is falsy (`null`, `0`, `false`, `""`), the `!uploadData`
check keeps treating the captured payload as absent, so on `'end'` the
call still rejects with the incomplete-upload error (`Failed to
upload`) instead of resolving with the parsed value. -/
theorem falsy_bodies_reject_incomplete (fileName : String) (N : Nat)
    (cs : List (List Nat)) (server : Nat → Nat × JValue)
    (hok : ∀ i, i < cs.length → (server i).1 < 400)
    (hfalsy : ∀ i, i < cs.length → jsFalsy (server i).2 = true) :
    (uploadFromStream fileName N cs false (okEnv server)).2
      = .rejectedIncomplete := by
  have h := processChunks_falsy_data fileName N server cs 0 (-1) .jNull
    rfl (by simpa using hok) (by simpa using hfalsy)
  simp only [uploadFromStream]
  rw [h.2]
  simp [streamFinish, h.1]

def c9server : Nat → Nat × JValue := fun _ => (200, .jNull)

/-- Witness for C9: two chunks, both responses status 200 with body
`null`; the call rejects with the incomplete-upload error. -/
theorem falsy_bodies_reject_incomplete_witness :
    (uploadFromStream "f.bin" 3 [[1], [2, 3]] false
          (okEnv c9server)).2
      = .rejectedIncomplete :=
  falsy_bodies_reject_incomplete "f.bin" 3 [[1], [2, 3]] c9server
    (fun _ _ => by norm_num [c9server]) (fun _ _ => rfl)

/-- Claim C10.  An explicit timeout of 0 ms is falsy, so
`options?.timeout || DEFAULT_UPLOAD_TIMEOUT` silently replaces it with
the default: the deadline armed by `upload` for `timeout = some 0` is
`DEFAULT_UPLOAD_TIMEOUT`, identical to giving no timeout at all, and
that default is 20 000 ms. -/
theorem zero_timeout_replaced_by_default (mediaType : String)
    (file : UploadFile) (chunks : List (List Nat)) (streamErr : Bool)
    (durs : Nat → Nat) (server : Nat → Nat × JValue) :
    (upload mediaType file (some 0) chunks streamErr durs server).1
        = DEFAULT_UPLOAD_TIMEOUT
      ∧ effectiveTimeout (some 0) = effectiveTimeout none
      ∧ DEFAULT_UPLOAD_TIMEOUT = 20000 := by
  refine ⟨?_, rfl, rfl⟩
  cases file <;> rfl

end MaxUpload
